import Mathlib

/-!
Verification of the `fcord` coordinate library (`fcord/coords.py`).

Modelling conventions for the shallow embedding:
- Python `float` components (positions, displacements) are modelled as `ℝ`.
- The yaw field defaults to `float("nan")`; yaw is never used in arithmetic,
  only stored and copied, so we model a yaw value as `Option ℝ` where `none`
  stands for the NaN sentinel and `some y` for an ordinary float `y`.
- `x ** 0.5` applied to a nonnegative real is modelled as `Real.sqrt`.
- Python exceptions are modelled by `Except PyError`: `ValueError(msg)` raised
  by the `__add__`/`__sub__` dispatchers, the `TypeError` the interpreter
  raises when neither operand supports `+`/`-`, and the `AttributeError`
  raised by reading a missing attribute off a message object.
- The external message structures (`px4_interfaces.msg.Ned` / `Gps`) may or
  may not carry a `yaw` attribute (the backward-compatibility scenario the
  spec describes), so their `yaw` slot is `Option Yaw`: `none` means the
  attribute is absent, `some v` that it is present with value `v`.
-/

/-- A yaw value: `none` models the NaN sentinel `float("nan")`. -/
abbrev Yaw : Type := Option ℝ

/-- Python exceptions that the modelled code can raise. -/
inductive PyError : Type where
  | valueError (msg : String) : PyError
  | typeError (msg : String) : PyError
  | attributeError (attr : String) : PyError
  deriving Repr, DecidableEq

/-- `math.radians(x) = x * pi / 180`. -/
noncomputable def radians (x : ℝ) : ℝ := x * Real.pi / 180

/-- `Coordinate.l2_norm`: `sum([x ** 2 for x in self.r]) ** 0.5`. -/
noncomputable def Coordinate.l2_norm (r : List ℝ) : ℝ :=
  Real.sqrt ((r.map (fun x => x ^ 2)).sum)

/-- `Coordinate.horizontal_distance`: `sum([x ** 2 for x in self.r[:2]]) ** 0.5`. -/
noncomputable def Coordinate.horizontal_distance (r : List ℝ) : ℝ :=
  Real.sqrt (((r.take 2).map (fun x => x ^ 2)).sum)

/-- `Coordinate.vertical_distance`: `abs(self.r[2])`. -/
def Coordinate.vertical_distance (r : List ℝ) : ℝ :=
  |r.getD 2 0|

/-- `CartesianCoord(x, y, z)`: an ECEF point. -/
structure CartesianCoord : Type where
  x : ℝ
  y : ℝ
  z : ℝ

/-- `GPSCoord(lat, lon, alt, yaw="nan")`. -/
structure GPSCoord : Type where
  lat : ℝ
  lon : ℝ
  alt : ℝ
  yaw : Yaw := none

/-- `ENUCoord(e, n, u, yaw="nan")`. -/
structure ENUCoord : Type where
  e : ℝ
  n : ℝ
  u : ℝ
  yaw : Yaw := none

/-- `NEDCoord(n, e, d, yaw="nan")`. -/
structure NEDCoord : Type where
  n : ℝ
  e : ℝ
  d : ℝ
  yaw : Yaw := none

/-- Runtime tag for an arbitrary coordinate operand, for the `isinstance`
dispatch of the Python `__add__` / `__sub__` methods. -/
inductive AnyCoord : Type where
  | cart (c : CartesianCoord) : AnyCoord
  | gps (g : GPSCoord) : AnyCoord
  | enu (v : ENUCoord) : AnyCoord
  | ned (w : NEDCoord) : AnyCoord

/-- The bare class name, as Python renders it inside
`unsupported operand type(s)` messages. -/
def AnyCoord.className : AnyCoord → String
  | .cart _ => "CartesianCoord"
  | .gps _ => "GPSCoord"
  | .enu _ => "ENUCoord"
  | .ned _ => "NEDCoord"

/-- `f"{type(other)}"`: how Python renders `type(other)` inside the
f-strings of the `ValueError` messages (`\x27` is an ASCII quote). -/
def AnyCoord.typeRepr (c : AnyCoord) : String :=
  "<class \x27fcord.coords." ++ c.className ++ "\x27>"

/-- `CartesianCoord.r`. -/
def CartesianCoord.r (c : CartesianCoord) : List ℝ := [c.x, c.y, c.z]

/-- `GPSCoord.r`. -/
def GPSCoord.r (g : GPSCoord) : List ℝ := [g.lat, g.lon, g.alt]

/-- `ENUCoord.r`. -/
def ENUCoord.r (v : ENUCoord) : List ℝ := [v.e, v.n, v.u]

/-- `NEDCoord.r`. -/
def NEDCoord.r (w : NEDCoord) : List ℝ := [w.n, w.e, w.d]

/-- `CartesianCoord.l2_norm` (inherited from `Coordinate`). -/
noncomputable def CartesianCoord.l2_norm (c : CartesianCoord) : ℝ :=
  Coordinate.l2_norm c.r

/-- The `isinstance(other, CartesianCoord)` branch of `CartesianCoord.__add__`. -/
def CartesianCoord.addSame (a b : CartesianCoord) : CartesianCoord :=
  ⟨a.x + b.x, a.y + b.y, a.z + b.z⟩

/-- The `isinstance(other, CartesianCoord)` branch of `CartesianCoord.__sub__`. -/
def CartesianCoord.subSame (a b : CartesianCoord) : CartesianCoord :=
  ⟨a.x - b.x, a.y - b.y, a.z - b.z⟩

/-- `CartesianCoord.__add__`. -/
def CartesianCoord.add (a : CartesianCoord) (other : AnyCoord) :
    Except PyError CartesianCoord :=
  match other with
  | .cart b => .ok (a.addSame b)
  | _ => .error (.valueError ("Cannot add CartesianCoord to " ++ other.typeRepr))

/-- `CartesianCoord.__sub__`. -/
def CartesianCoord.sub (a : CartesianCoord) (other : AnyCoord) :
    Except PyError CartesianCoord :=
  match other with
  | .cart b => .ok (a.subSame b)
  | _ => .error (.valueError ("Cannot subtract CartesianCoord from " ++ other.typeRepr))

/-- `GPSCoord.ecef`: the WGS84 geodetic-to-ECEF transform, exactly as in
`fcord/coords.py` lines 61-74. -/
noncomputable def GPSCoord.ecef (g : GPSCoord) : CartesianCoord :=
  let a : ℝ := 6378137.0
  let f : ℝ := 1 / 298.257223563
  let b : ℝ := a * (1 - f)
  let e2 : ℝ := (a ^ 2 - b ^ 2) / a ^ 2
  let lat_rad : ℝ := radians g.lat
  let lon_rad : ℝ := radians g.lon
  let N : ℝ := a / Real.sqrt (1 - e2 * Real.sin lat_rad ^ 2)
  { x := (N + g.alt) * Real.cos lat_rad * Real.cos lon_rad
    y := (N + g.alt) * Real.cos lat_rad * Real.sin lon_rad
    z := (N * (1 - e2) + g.alt) * Real.sin lat_rad }

/-- `GPSCoord.distance`: `(self.ecef() - other.ecef()).l2_norm()`. Both ECEF
images are `CartesianCoord`s, so `__sub__` takes its same-type branch
(`subSame`) and cannot raise. -/
noncomputable def GPSCoord.distance (p q : GPSCoord) : ℝ :=
  (CartesianCoord.subSame p.ecef q.ecef).l2_norm

/-- The external `px4_interfaces.msg.Gps` message: `yaw` is `none` when the
message structure lacks the attribute. -/
structure GpsMsg : Type where
  lat : ℝ
  lon : ℝ
  alt : ℝ
  yaw : Option Yaw

/-- The external `px4_interfaces.msg.Ned` message. -/
structure NedMsg : Type where
  n : ℝ
  e : ℝ
  d : ℝ
  yaw : Option Yaw

/-- `GPSCoord.to_msg`: copies lat/lon/alt/yaw field for field. -/
def GPSCoord.to_msg (g : GPSCoord) : GpsMsg :=
  ⟨g.lat, g.lon, g.alt, some g.yaw⟩

/-- `GPSCoord.from_msg`: checks `hasattr(msg, "yaw")`; without the attribute
it calls the constructor with its NaN default. -/
def GPSCoord.from_msg (msg : GpsMsg) : GPSCoord :=
  match msg.yaw with
  | some y => ⟨msg.lat, msg.lon, msg.alt, y⟩
  | none => ⟨msg.lat, msg.lon, msg.alt, none⟩

/-- `NEDCoord.to_msg`: copies n/e/d/yaw field for field. -/
def NEDCoord.to_msg (w : NEDCoord) : NedMsg :=
  ⟨w.n, w.e, w.d, some w.yaw⟩

/-- `NEDCoord.from_msg`: reads `msg.yaw` unconditionally; on a message
without the attribute, Python raises `AttributeError`. -/
def NEDCoord.from_msg (msg : NedMsg) : Except PyError NEDCoord :=
  match msg.yaw with
  | some y => .ok ⟨msg.n, msg.e, msg.d, y⟩
  | none => .error (.attributeError "yaw")

/-- `ENUCoord.to_ned`: `NEDCoord(self.n, self.e, -self.u)` (yaw left at its
NaN default). -/
def ENUCoord.to_ned (v : ENUCoord) : NEDCoord :=
  ⟨v.n, v.e, -v.u, none⟩

/-- `NEDCoord.to_enu`: `ENUCoord(self.e, self.n, -self.d)` (yaw left at its
NaN default). -/
def NEDCoord.to_enu (w : NEDCoord) : ENUCoord :=
  ⟨w.e, w.n, -w.d, none⟩

/-- `NEDCoord.to_gps`: delegates to the external `navpy.ned2lla` routine
(a parameter here), then `GPSCoord(lat, lon, alt)` with yaw at its NaN
default. -/
def NEDCoord.to_gps (ned2lla : List ℝ → ℝ → ℝ → ℝ → ℝ × ℝ × ℝ)
    (w : NEDCoord) (ref : GPSCoord) : GPSCoord :=
  let lla := ned2lla w.r ref.lat ref.lon ref.alt
  ⟨lla.1, lla.2.1, lla.2.2, none⟩

/-- The `isinstance(other, ENUCoord)` branch of `ENUCoord.__add__`:
`ENUCoord(self.e + other.e, self.n + other.n, self.u + other.u)` — note the
constructor is called without yaw, so the result's yaw is the NaN default. -/
def ENUCoord.addSame (a b : ENUCoord) : ENUCoord :=
  ⟨a.e + b.e, a.n + b.n, a.u + b.u, none⟩

/-- The `isinstance(other, ENUCoord)` branch of `ENUCoord.__sub__`. -/
def ENUCoord.subSame (a b : ENUCoord) : ENUCoord :=
  ⟨a.e - b.e, a.n - b.n, a.u - b.u, none⟩

/-- `ENUCoord.__add__`. The `isinstance(other, NEDCoord)` branch is
`self + other.to_enu()`: the recursive call provably lands in the ENU-ENU
branch, i.e. `addSame`. -/
def ENUCoord.add (a : ENUCoord) (other : AnyCoord) : Except PyError ENUCoord :=
  match other with
  | .enu b => .ok (a.addSame b)
  | .ned b => .ok (a.addSame b.to_enu)
  | _ => .error (.valueError ("Cannot add ENUCoord to " ++ other.typeRepr))

/-- `ENUCoord.__sub__`; the NED branch is `self - other.to_enu()`. -/
def ENUCoord.sub (a : ENUCoord) (other : AnyCoord) : Except PyError ENUCoord :=
  match other with
  | .enu b => .ok (a.subSame b)
  | .ned b => .ok (a.subSame b.to_enu)
  | _ => .error (.valueError ("Cannot subtract ENUCoord from " ++ other.typeRepr))

/-- The `isinstance(other, NEDCoord)` branch of `NEDCoord.__add__`. -/
def NEDCoord.addSame (a b : NEDCoord) : NEDCoord :=
  ⟨a.n + b.n, a.e + b.e, a.d + b.d, none⟩

/-- The `isinstance(other, NEDCoord)` branch of `NEDCoord.__sub__`. -/
def NEDCoord.subSame (a b : NEDCoord) : NEDCoord :=
  ⟨a.n - b.n, a.e - b.e, a.d - b.d, none⟩

/-- `NEDCoord.__add__`; the ENU branch is `self + other.to_ned()`. -/
def NEDCoord.add (a : NEDCoord) (other : AnyCoord) : Except PyError NEDCoord :=
  match other with
  | .ned b => .ok (a.addSame b)
  | .enu b => .ok (a.addSame b.to_ned)
  | _ => .error (.valueError ("Cannot add NEDCoord to " ++ other.typeRepr))

/-- `NEDCoord.__sub__`; the ENU branch is `self - other.to_ned()`. -/
def NEDCoord.sub (a : NEDCoord) (other : AnyCoord) : Except PyError NEDCoord :=
  match other with
  | .ned b => .ok (a.subSame b)
  | .enu b => .ok (a.subSame b.to_ned)
  | _ => .error (.valueError ("Cannot subtract NEDCoord from " ++ other.typeRepr))

/-- Python evaluation of `lhs + rhs` over the library's coordinate types.
`GPSCoord` defines no `__add__`, and no class in the module defines
`__radd__`, so with a `GPSCoord` on the left the interpreter raises
`TypeError: unsupported operand type(s) for +`. -/
def pythonAdd (lhs rhs : AnyCoord) : Except PyError AnyCoord :=
  match lhs with
  | .cart a => (a.add rhs).map .cart
  | .gps _ => .error (.typeError ("unsupported operand type(s) for +: \x27GPSCoord\x27 and \x27" ++ rhs.className ++ "\x27"))
  | .enu a => (a.add rhs).map .enu
  | .ned a => (a.add rhs).map .ned

/-- Python evaluation of `lhs - rhs` over the library's coordinate types;
as with `+`, a `GPSCoord` on the left gives a built-in `TypeError`. -/
def pythonSub (lhs rhs : AnyCoord) : Except PyError AnyCoord :=
  match lhs with
  | .cart a => (a.sub rhs).map .cart
  | .gps _ => .error (.typeError ("unsupported operand type(s) for -: \x27GPSCoord\x27 and \x27" ++ rhs.className ++ "\x27"))
  | .enu a => (a.sub rhs).map .enu
  | .ned a => (a.sub rhs).map .ned

/-- Does the list of characters start with the pattern? -/
def startsWithCh : List Char → List Char → Bool
  | [], _ => true
  | _ :: _, [] => false
  | p :: ps, c :: cs => p == c && startsWithCh ps cs

/-- Does the pattern occur contiguously somewhere in the text? -/
def containsCh (pat : List Char) : List Char → Bool
  | [] => startsWithCh pat []
  | c :: cs => startsWithCh pat (c :: cs) || containsCh pat cs

/-- The string `s` mentions `pat` as a contiguous substring. -/
def strMentions (s pat : String) : Prop :=
  containsCh pat.data s.data = true

instance (s pat : String) : Decidable (strMentions s pat) := by
  unfold strMentions; infer_instance

/-- The WGS84 geodetic-to-ECEF formula exactly as the spec writes it
(section 4.3), for comparison against `GPSCoord.ecef`. -/
noncomputable def specEcef (g : GPSCoord) : CartesianCoord :=
  let a : ℝ := 6378137.0
  let f : ℝ := 1 / 298.257223563
  let b : ℝ := a * (1 - f)
  let e2 : ℝ := (a ^ 2 - b ^ 2) / a ^ 2
  let lat_rad : ℝ := radians g.lat
  let lon_rad : ℝ := radians g.lon
  let N : ℝ := a / Real.sqrt (1 - e2 * Real.sin lat_rad ^ 2)
  { x := (N + g.alt) * Real.cos lat_rad * Real.cos lon_rad
    y := (N + g.alt) * Real.cos lat_rad * Real.sin lon_rad
    z := (N * (1 - e2) + g.alt) * Real.sin lat_rad }

/-- C1: `GPSCoord.ecef` computes exactly the WGS84 formula of the spec,
and at the reference fix `GPSCoord(0, 0, 0)` (equator, prime meridian, sea
level) it returns `CartesianCoord(6378137.0, 0.0, 0.0)`. -/
theorem ecef_wgs84_formula :
    (∀ g : GPSCoord, g.ecef = specEcef g) ∧
    GPSCoord.ecef ⟨0, 0, 0, none⟩ = ⟨6378137.0, 0, 0⟩ := by
  constructor
  · intro g; rfl
  · unfold GPSCoord.ecef
    simp [radians, CartesianCoord.mk.injEq]

/-- C2 counterexample: on a NED message lacking the yaw attribute,
`NEDCoord.from_msg` raises `AttributeError` instead of tolerating the
missing field. -/
theorem ned_from_msg_missing_yaw_raises :
    NEDCoord.from_msg ⟨0, 0, 0, none⟩ =
      Except.error (PyError.attributeError "yaw") := rfl

/-- C2 amended: `GPSCoord.from_msg` tolerates a message without a yaw field
and yields yaw = NaN, but `NEDCoord.from_msg` reads `msg.yaw`
unconditionally and raises `AttributeError` on such a message. -/
theorem from_msg_missing_yaw_behavior :
    (∀ lat lon alt : ℝ, (GPSCoord.from_msg ⟨lat, lon, alt, none⟩).yaw = none) ∧
    (∀ n e d : ℝ, NEDCoord.from_msg ⟨n, e, d, none⟩ =
      Except.error (PyError.attributeError "yaw")) :=
  ⟨fun _ _ _ => rfl, fun _ _ _ => rfl⟩

/-- C3: cross-frame `+` and `-` convert the right-hand operand into the left
operand's frame (`to_enu` / `to_ned`) and then combine component-wise; the
result is a coordinate of the left operand's frame, with the combined
components spelled out. -/
theorem cross_frame_arith_converts_rhs :
    ∀ (a : ENUCoord) (b : NEDCoord) (p : NEDCoord) (q : ENUCoord),
      a.add (.ned b) = .ok (a.addSame b.to_enu) ∧
      a.sub (.ned b) = .ok (a.subSame b.to_enu) ∧
      a.addSame b.to_enu = ⟨a.e + b.e, a.n + b.n, a.u - b.d, none⟩ ∧
      a.subSame b.to_enu = ⟨a.e - b.e, a.n - b.n, a.u + b.d, none⟩ ∧
      p.add (.enu q) = .ok (p.addSame q.to_ned) ∧
      p.sub (.enu q) = .ok (p.subSame q.to_ned) ∧
      p.addSame q.to_ned = ⟨p.n + q.n, p.e + q.e, p.d - q.u, none⟩ ∧
      p.subSame q.to_ned = ⟨p.n - q.n, p.e - q.e, p.d + q.u, none⟩ := by
  intro a b p q
  refine ⟨rfl, rfl, ?_, ?_, rfl, rfl, ?_, ?_⟩ <;>
    simp [ENUCoord.addSame, ENUCoord.subSame, NEDCoord.addSame,
      NEDCoord.subSame, NEDCoord.to_enu, ENUCoord.to_ned] <;> ring

/-- C4 counterexample: the result of a cross-frame addition does not carry
the left operand's yaw — with left yaw `1.0`, the result's yaw is the NaN
sentinel. -/
theorem cross_frame_add_drops_yaw_cex :
    (ENUCoord.add ⟨0, 0, 0, some 1⟩ (.ned ⟨0, 0, 0, none⟩)).map ENUCoord.yaw =
      Except.ok none ∧
    ENUCoord.yaw ⟨0, 0, 0, some 1⟩ ≠ none := by
  exact ⟨rfl, by simp [ENUCoord.yaw]⟩

/-- C4 amended: the yaw of every cross-frame addition or subtraction result
is the NaN sentinel (the constructor default), regardless of either
operand's yaw; the classes store no origin field at all. -/
theorem cross_frame_result_yaw_nan :
    ∀ (a : ENUCoord) (b : NEDCoord) (p : NEDCoord) (q : ENUCoord),
      (a.add (.ned b)).map ENUCoord.yaw = .ok none ∧
      (a.sub (.ned b)).map ENUCoord.yaw = .ok none ∧
      (p.add (.enu q)).map NEDCoord.yaw = .ok none ∧
      (p.sub (.enu q)).map NEDCoord.yaw = .ok none :=
  fun _ _ _ _ => ⟨rfl, rfl, rfl, rfl⟩

/-- C5: ENU⇄NED conversion is an exact involution on the displacement
components, with `to_ned` giving `(n, e, -u)` and `to_enu` giving
`(e, n, -d)`. -/
theorem enu_ned_involution :
    ∀ (v : ENUCoord) (w : NEDCoord),
      v.to_ned.n = v.n ∧ v.to_ned.e = v.e ∧ v.to_ned.d = -v.u ∧
      w.to_enu.e = w.e ∧ w.to_enu.n = w.n ∧ w.to_enu.u = -w.d ∧
      v.to_ned.to_enu.e = v.e ∧ v.to_ned.to_enu.n = v.n ∧
      v.to_ned.to_enu.u = v.u ∧
      w.to_enu.to_ned.n = w.n ∧ w.to_enu.to_ned.e = w.e ∧
      w.to_enu.to_ned.d = w.d := by
  intro v w
  simp [ENUCoord.to_ned, NEDCoord.to_enu]

/-- C6: adding or subtracting a `GPSCoord` to/from a `CartesianCoord` raises
the frame-mismatch `ValueError`, whose message mentions both operand type
names; no coordinate is produced. -/
theorem cart_gps_frame_mismatch :
    ∀ (c : CartesianCoord) (g : GPSCoord),
      c.add (.gps g) = .error (.valueError
        "Cannot add CartesianCoord to <class \x27fcord.coords.GPSCoord\x27>") ∧
      c.sub (.gps g) = .error (.valueError
        "Cannot subtract CartesianCoord from <class \x27fcord.coords.GPSCoord\x27>") ∧
      strMentions "Cannot add CartesianCoord to <class \x27fcord.coords.GPSCoord\x27>"
        "CartesianCoord" ∧
      strMentions "Cannot add CartesianCoord to <class \x27fcord.coords.GPSCoord\x27>"
        "GPSCoord" ∧
      strMentions "Cannot subtract CartesianCoord from <class \x27fcord.coords.GPSCoord\x27>"
        "CartesianCoord" ∧
      strMentions "Cannot subtract CartesianCoord from <class \x27fcord.coords.GPSCoord\x27>"
        "GPSCoord" := by
  intro c g
  exact ⟨rfl, rfl, by decide, by decide, by decide, by decide⟩

/-- C7: geodetic distance is symmetric: it is the Euclidean norm of the
difference of the two ECEF images, and squares kill the sign of the
difference. -/
theorem gps_distance_symm :
    ∀ p q : GPSCoord, p.distance q = q.distance p := by
  intro p q
  unfold GPSCoord.distance CartesianCoord.l2_norm Coordinate.l2_norm
    CartesianCoord.subSame CartesianCoord.r
  simp only [List.map_cons, List.map_nil, List.sum_cons, List.sum_nil]
  congr 1
  ring

/-- C8: the message adapters round-trip exactly: `from_msg (to_msg c)`
reproduces every field of `c`, including a NaN yaw. -/
theorem msg_round_trip :
    (∀ g : GPSCoord, GPSCoord.from_msg g.to_msg = g) ∧
    (∀ w : NEDCoord, NEDCoord.from_msg w.to_msg = Except.ok w) :=
  ⟨fun _ => rfl, fun _ => rfl⟩

/-- C9: frame conversion discards the heading: `to_ned`, `to_enu` and
`to_gps` all return a coordinate whose yaw is the NaN sentinel, for every
input yaw and (for `to_gps`) every external geodesy routine. -/
theorem conversion_discards_yaw :
    ∀ (v : ENUCoord) (w : NEDCoord) (f : List ℝ → ℝ → ℝ → ℝ → ℝ × ℝ × ℝ)
      (ref : GPSCoord),
      v.to_ned.yaw = none ∧ w.to_enu.yaw = none ∧
      (NEDCoord.to_gps f w ref).yaw = none :=
  fun _ _ _ _ => ⟨rfl, rfl, rfl⟩

/-- C10: `GPSCoord` defines no arithmetic operators, so with a `GPSCoord` on
the left, `+` and `-` raise the interpreter's built-in `TypeError` for every
right-hand coordinate — never the frame-mismatch `ValueError` of the other
classes. -/
theorem gps_arith_type_error :
    ∀ (g : GPSCoord) (o : AnyCoord),
      pythonAdd (.gps g) o = .error (.typeError
        ("unsupported operand type(s) for +: \x27GPSCoord\x27 and \x27" ++
          o.className ++ "\x27")) ∧
      pythonSub (.gps g) o = .error (.typeError
        ("unsupported operand type(s) for -: \x27GPSCoord\x27 and \x27" ++
          o.className ++ "\x27")) ∧
      (∀ s, pythonAdd (.gps g) o ≠ .error (.valueError s)) ∧
      (∀ s, pythonSub (.gps g) o ≠ .error (.valueError s)) := by
  intro g o
  refine ⟨rfl, rfl, ?_, ?_⟩ <;> intro s h <;> simp [pythonAdd, pythonSub] at h
